import Mathlib

/-!
Verification of the Phoenix AID backend template servers.

The repository is a set of FastAPI template files (`api_server_template.py`,
`backend_integration_example.py`, `backend_map_endpoints_example.py`,
`integration_examples.py`).  Every route handler reads its request, optionally
decodes the uploaded bytes as an image, and returns a literal JSON value; some
handlers wrap their body in a try/except that converts any raised exception
into an HTTP 500 response whose detail is the string representation of the
exception.

We embed the handlers shallowly: Python floats become rationals, JSON values
become an inductive `Json` type, a handler body is an `Except String Json`
computation (the `String` is the `str()` of a raised exception), and the
handler boundary either catches the exception (the try/except present in the
source) or lets it escape (`HandlerResult.uncaught`).
-/

/-- JSON values as returned by the handlers.  Python floats are modelled as
rationals, which is exact for every literal appearing in the source. -/
inductive Json where
  | null : Json
  | str : String → Json
  | num : ℚ → Json
  | bool : Bool → Json
  | arr : List Json → Json
  | obj : List (String × Json) → Json

/-- Rendering of a Python `Optional[str]` into a JSON field: `None` serializes
as `null`. -/
def optStr : Option String → Json
  | some s => Json.str s
  | none => Json.null

/-- A decoded PIL image.  The handlers never inspect the decoded image, so we
only record the bytes it came from. -/
structure PILImage where
  data : List Nat
  deriving Repr, DecidableEq

/-- An uploaded multipart file: `filename` and the byte stream `content`
returned by `await image.read()`. -/
structure UploadFile where
  filename : String
  content : List Nat
  deriving Repr, DecidableEq

/-- The PNG file signature, used as the modelled image-format check. -/
def pngSignature : List Nat := [137, 80, 78, 71, 13, 10, 26, 10]

/-- Modelled from the spec: the handlers call PIL's `Image.open` on the
uploaded bytes (PIL is an external library, not part of the repository).  PIL
raises `UnidentifiedImageError` with the non-empty message
`cannot identify image file ...` when the bytes are not in a recognized image
format; we model format recognition as the presence of the PNG signature. -/
def Image_open (bytes : List Nat) : Except String PILImage :=
  if pngSignature.isPrefixOf bytes then
    Except.ok ⟨bytes⟩
  else
    Except.error "cannot identify image file <_io.BytesIO object>"

/-- What a route handler produces for one request: a successful JSON body, an
HTTP error response (FastAPI's `HTTPException` carrying a `detail` string), or
an exception that escaped the handler uncaught. -/
inductive HandlerResult where
  | ok : Json → HandlerResult
  | httpError : Nat → String → HandlerResult
  | uncaught : String → HandlerResult

/-- The `try/except Exception as e: raise HTTPException(status_code=500,
detail=str(e))` boundary wrapped around a handler body. -/
def tryExcept500 (body : Except String Json) : HandlerResult :=
  match body with
  | Except.ok j => HandlerResult.ok j
  | Except.error e => HandlerResult.httpError 500 e

/-- A handler with no try/except: an exception raised by the body escapes. -/
def noBoundary (body : Except String Json) : HandlerResult :=
  match body with
  | Except.ok j => HandlerResult.ok j
  | Except.error e => HandlerResult.uncaught e

/-- Python truthiness of an `Optional[float]`: `None` and `0.0` are falsy. -/
def pyTruthy : Option ℚ → Bool
  | none => false
  | some x => x != 0

/-- Top-level keys of a successful JSON-object response. -/
def topKeys : HandlerResult → List String
  | HandlerResult.ok (Json.obj fields) => fields.map Prod.fst
  | _ => []

/-- Value of a top-level field of a successful JSON-object response. -/
def getField (r : HandlerResult) (k : String) : Option Json :=
  match r with
  | HandlerResult.ok (Json.obj fields) => fields.lookup k
  | _ => none

namespace ApiServerTemplate

/-- CORS `allow_origins` list of `api_server_template.py`. -/
def allow_origins : List String :=
  ["http://localhost:3000", "http://127.0.0.1:3000"]

/-- Handler of `GET /api/status` in `api_server_template.py`: returns a literal
JSON object (no try/except; the body cannot raise). -/
def get_status : HandlerResult :=
  HandlerResult.ok (Json.obj
    [("status", Json.str "operational"),
     ("active_wildfires", Json.num 0),
     ("risk_level", Json.str "low"),
     ("last_update", Json.str "2024-01-01T00:00:00Z")])

/-- The placeholder prediction literal of `upload_image` in
`api_server_template.py`. -/
def upload_prediction : Json :=
  Json.obj
    [("risk_level", Json.str "medium"),
     ("confidence", Json.num 0.75),
     ("recommendations", Json.arr
       [Json.str "Monitor area for 24 hours",
        Json.str "Prepare evacuation routes",
        Json.str "Alert nearby infrastructure"])]

/-- Body of the `POST /api/upload-image` handler of `api_server_template.py`:
read the upload, decode it with `Image.open` (which may raise), build the
response dict, and append the `location` key when `latitude and longitude` is
truthy in Python's sense. -/
def upload_image_body (image : UploadFile) (latitude longitude : Option ℚ)
    (timestamp : Option String) : Except String Json := do
  let contents := image.content
  let _image_pil ← Image_open contents
  let response :=
    [("message", Json.str "Image uploaded successfully"),
     ("filename", Json.str image.filename),
     ("size", Json.num contents.length),
     ("timestamp", optStr timestamp),
     ("prediction", upload_prediction)]
  let response :=
    if pyTruthy latitude && pyTruthy longitude then
      response ++
        [("location", Json.obj
          [("lat", Json.num (latitude.getD 0)),
           ("lng", Json.num (longitude.getD 0))])]
    else
      response
  return Json.obj response

/-- The `POST /api/upload-image` handler of `api_server_template.py`: its body
runs inside `try/except Exception as e: raise HTTPException(500, str(e))`. -/
def upload_image (image : UploadFile) (latitude longitude : Option ℚ)
    (timestamp : Option String) : HandlerResult :=
  tryExcept500 (upload_image_body image latitude longitude timestamp)

/-- The placeholder prediction literal of `predict_wildfire` in
`api_server_template.py`. -/
def predict_prediction : Json :=
  Json.obj
    [("risk_level", Json.str "high"),
     ("confidence", Json.num 0.85),
     ("affected_areas", Json.arr [Json.str "Area A", Json.str "Area B"]),
     ("recommendations", Json.obj
       [("infrastructure", Json.arr
         [Json.str "Secure power lines in affected zone",
          Json.str "Prepare water supply systems",
          Json.str "Alert transportation department"]),
        ("evacuation", Json.arr
         [Json.str "Route 1: Clear",
          Json.str "Route 2: Monitor"])])]

/-- Body of the `POST /api/predict` handler of `api_server_template.py`: read
the upload, decode it (which may raise), and return the literal prediction. -/
def predict_wildfire_body (image : UploadFile) : Except String Json := do
  let contents := image.content
  let _image_pil ← Image_open contents
  return predict_prediction

/-- The `POST /api/predict` handler of `api_server_template.py` (body inside
the same try/except-to-500 boundary). -/
def predict_wildfire (image : UploadFile) : HandlerResult :=
  tryExcept500 (predict_wildfire_body image)

/-- Body of `POST /api/infrastructure/recommendations` in
`api_server_template.py`: a literal return; the `wildfire_data` argument is
never inspected. -/
def get_infrastructure_recommendations_body (_wildfire_data : Json) :
    Except String Json :=
  return Json.obj
    [("recommendations", Json.arr
      [Json.obj
        [("infrastructure_type", Json.str "power_lines"),
         ("action", Json.str "De-energize affected lines"),
         ("priority", Json.str "high"),
         ("estimated_time", Json.str "2 hours")],
       Json.obj
        [("infrastructure_type", Json.str "water_supply"),
         ("action", Json.str "Increase water pressure in fire zones"),
         ("priority", Json.str "high"),
         ("estimated_time", Json.str "30 minutes")]]),
     ("evacuation_routes", Json.obj
       [("status", Json.str "clear"),
        ("alternate_routes", Json.arr [Json.str "Route A", Json.str "Route B"])])]

/-- The `POST /api/infrastructure/recommendations` handler of
`api_server_template.py` (body inside try/except-to-500). -/
def get_infrastructure_recommendations (wildfire_data : Json) : HandlerResult :=
  tryExcept500 (get_infrastructure_recommendations_body wildfire_data)

/-- Body of `GET /api/wildfires/nearby` in `api_server_template.py`.  `radius`
is a query parameter with FastAPI default `Query(50)`, modelled as an
`Option ℚ` that falls back to 50 when the parameter is omitted.  The body
returns the placeholder `wildfires: [], total: 0, radius_km: radius` object. -/
def get_wildfires_nearby_body (_lat _lng : ℚ) (radius : Option ℚ) :
    Except String Json :=
  return Json.obj
    [("wildfires", Json.arr []),
     ("total", Json.num 0),
     ("radius_km", Json.num (radius.getD 50))]

/-- The `GET /api/wildfires/nearby` handler of `api_server_template.py` (body
inside try/except-to-500). -/
def get_wildfires_nearby (lat lng : ℚ) (radius : Option ℚ) : HandlerResult :=
  tryExcept500 (get_wildfires_nearby_body lat lng radius)

/-- Body of `GET /api/wildfires/active` in `api_server_template.py`. -/
def get_all_active_wildfires_body : Except String Json :=
  return Json.obj
    [("wildfires", Json.arr []),
     ("total", Json.num 0)]

/-- The `GET /api/wildfires/active` handler of `api_server_template.py` (body
inside try/except-to-500). -/
def get_all_active_wildfires : HandlerResult :=
  tryExcept500 get_all_active_wildfires_body

end ApiServerTemplate

namespace BackendIntegrationExample

/-- CORS `allow_origins` list of `backend_integration_example.py`. -/
def allow_origins : List String :=
  ["http://localhost:3000", "http://127.0.0.1:3000"]

/-- Handler of `GET /api/status` in `backend_integration_example.py` (literal
return, no try/except; the body cannot raise). -/
def get_status : HandlerResult :=
  HandlerResult.ok (Json.obj
    [("status", Json.str "operational"),
     ("active_wildfires", Json.num 0),
     ("risk_level", Json.str "low"),
     ("last_update", Json.str "2024-01-01T00:00:00Z")])

/-- Body of `POST /api/upload-image` in `backend_integration_example.py`: it
reads the upload but never decodes it as an image, then returns a literal
response built from the filename, byte count and timestamp. -/
def upload_image_body (image : UploadFile) (timestamp : Option String) :
    Except String Json := do
  let contents := image.content
  return Json.obj
    [("message", Json.str "Image uploaded successfully"),
     ("filename", Json.str image.filename),
     ("size", Json.num contents.length),
     ("timestamp", optStr timestamp),
     ("prediction", Json.obj
       [("risk_level", Json.str "medium"),
        ("confidence", Json.num 0.75),
        ("recommendations", Json.arr
          [Json.str "Monitor area for 24 hours",
           Json.str "Prepare evacuation routes",
           Json.str "Alert nearby infrastructure"])])]

/-- The `POST /api/upload-image` handler of `backend_integration_example.py`
(body inside try/except-to-500). -/
def upload_image (image : UploadFile) (timestamp : Option String) :
    HandlerResult :=
  tryExcept500 (upload_image_body image timestamp)

/-- Body of `POST /api/predict` in `backend_integration_example.py`: reads the
upload, never decodes it, and returns the literal prediction. -/
def predict_wildfire_body (image : UploadFile) : Except String Json := do
  let _contents := image.content
  return Json.obj
    [("risk_level", Json.str "high"),
     ("confidence", Json.num 0.85),
     ("affected_areas", Json.arr [Json.str "Area A", Json.str "Area B"]),
     ("recommendations", Json.obj
       [("infrastructure", Json.arr
         [Json.str "Secure power lines in affected zone",
          Json.str "Prepare water supply systems",
          Json.str "Alert transportation department"]),
        ("evacuation", Json.arr
         [Json.str "Route 1: Clear",
          Json.str "Route 2: Monitor"])])]

/-- The `POST /api/predict` handler of `backend_integration_example.py` (body
inside try/except-to-500). -/
def predict_wildfire (image : UploadFile) : HandlerResult :=
  tryExcept500 (predict_wildfire_body image)

/-- The `POST /api/infrastructure/recommendations` handler of
`backend_integration_example.py`: a literal return with NO try/except around
it (the body cannot raise, so nothing escapes). -/
def get_infrastructure_recommendations (_wildfire_data : Json) : HandlerResult :=
  noBoundary
    (return Json.obj
      [("recommendations", Json.arr
        [Json.obj
          [("infrastructure_type", Json.str "power_lines"),
           ("action", Json.str "De-energize affected lines"),
           ("priority", Json.str "high"),
           ("estimated_time", Json.str "2 hours")],
         Json.obj
          [("infrastructure_type", Json.str "water_supply"),
           ("action", Json.str "Increase water pressure in fire zones"),
           ("priority", Json.str "high"),
           ("estimated_time", Json.str "30 minutes")]]),
       ("evacuation_routes", Json.obj
         [("status", Json.str "clear"),
          ("alternate_routes", Json.arr [Json.str "Route A", Json.str "Route B"])])])

end BackendIntegrationExample

namespace BackendMapEndpointsExample

/-- The two fabricated wildfire records that `GET /api/wildfires/nearby` in
`backend_map_endpoints_example.py` builds around the query center. -/
def nearby_wildfires (lat lng : ℚ) : List Json :=
  [Json.obj
    [("id", Json.num 1),
     ("lat", Json.num (lat + 0.05)),
     ("lng", Json.num (lng + 0.05)),
     ("intensity", Json.str "high"),
     ("confidence", Json.num 0.85),
     ("area", Json.str "North Region"),
     ("detected_at", Json.str "2024-01-01T12:00:00Z"),
     ("status", Json.str "active"),
     ("affected_infrastructure", Json.arr
       [Json.str "power_lines", Json.str "water_supply"])],
   Json.obj
    [("id", Json.num 2),
     ("lat", Json.num (lat - 0.03)),
     ("lng", Json.num (lng + 0.08)),
     ("intensity", Json.str "medium"),
     ("confidence", Json.num 0.72),
     ("area", Json.str "East Region"),
     ("detected_at", Json.str "2024-01-01T11:30:00Z"),
     ("status", Json.str "active"),
     ("affected_infrastructure", Json.arr [Json.str "transportation"])]]

/-- Body of `GET /api/wildfires/nearby` in `backend_map_endpoints_example.py`:
builds the two fabricated wildfires at fixed offsets from the query center and
returns them with `total = len(wildfires)`, the effective radius and the
center coordinates.  `radius` has FastAPI default `Query(50)`. -/
def get_wildfires_nearby_body (lat lng : ℚ) (radius : Option ℚ) :
    Except String Json := do
  let wildfires := nearby_wildfires lat lng
  return Json.obj
    [("wildfires", Json.arr wildfires),
     ("total", Json.num wildfires.length),
     ("radius_km", Json.num (radius.getD 50)),
     ("center_lat", Json.num lat),
     ("center_lng", Json.num lng)]

/-- The `GET /api/wildfires/nearby` handler of
`backend_map_endpoints_example.py` (body inside try/except-to-500). -/
def get_wildfires_nearby (lat lng : ℚ) (radius : Option ℚ) : HandlerResult :=
  tryExcept500 (get_wildfires_nearby_body lat lng radius)

/-- Body of `GET /api/wildfires/active` in
`backend_map_endpoints_example.py`: one example wildfire, with
`total = len(wildfires)`. -/
def get_all_active_wildfires_body : Except String Json := do
  let wildfires :=
    [Json.obj
      [("id", Json.num 1),
       ("lat", Json.num 37.7749),
       ("lng", Json.num (-122.4194)),
       ("intensity", Json.str "high"),
       ("confidence", Json.num 0.85),
       ("area", Json.str "San Francisco Bay Area"),
       ("detected_at", Json.str "2024-01-01T12:00:00Z"),
       ("status", Json.str "active")]]
  return Json.obj
    [("wildfires", Json.arr wildfires),
     ("total", Json.num wildfires.length)]

/-- The `GET /api/wildfires/active` handler of
`backend_map_endpoints_example.py` (body inside try/except-to-500). -/
def get_all_active_wildfires : HandlerResult :=
  tryExcept500 get_all_active_wildfires_body

/-- Body of `POST /api/upload-image` in `backend_map_endpoints_example.py`:
reads and decodes the upload (decoding may raise), then returns a literal
response whose `location` value is a coordinate object when
`latitude and longitude` is truthy and `None` otherwise. -/
def upload_image_with_location_body (image : UploadFile)
    (latitude longitude : Option ℚ) (_timestamp : Option String) :
    Except String Json := do
  let contents := image.content
  let _image_pil ← Image_open contents
  return Json.obj
    [("message", Json.str "Image uploaded successfully"),
     ("filename", Json.str image.filename),
     ("location",
       if pyTruthy latitude && pyTruthy longitude then
         Json.obj
           [("lat", Json.num (latitude.getD 0)),
            ("lng", Json.num (longitude.getD 0))]
       else
         Json.null),
     ("prediction", Json.obj
       [("risk_level", Json.str "medium"),
        ("confidence", Json.num 0.75)])]

/-- The `POST /api/upload-image` handler of
`backend_map_endpoints_example.py` (body inside try/except-to-500). -/
def upload_image_with_location (image : UploadFile)
    (latitude longitude : Option ℚ) (timestamp : Option String) :
    HandlerResult :=
  tryExcept500 (upload_image_with_location_body image latitude longitude timestamp)

end BackendMapEndpointsExample

namespace IntegrationExamples

/-- Body of the Example 6 `POST /api/upload-image` handler of
`integration_examples.py`: reads the upload and decodes it with `Image.open`
(which may raise), then returns a literal response. -/
def upload_image_body (image : UploadFile) (timestamp : Option String) :
    Except String Json := do
  let contents := image.content
  let _image_pil ← Image_open contents
  return Json.obj
    [("message", Json.str "Image uploaded successfully"),
     ("filename", Json.str image.filename),
     ("size", Json.num contents.length),
     ("timestamp", optStr timestamp),
     ("prediction", Json.obj
       [("risk_level", Json.str "medium"),
        ("confidence", Json.num 0.75),
        ("recommendations", Json.arr
          [Json.str "Monitor area for 24 hours",
           Json.str "Prepare evacuation routes"])])]

/-- The Example 6 `POST /api/upload-image` handler of
`integration_examples.py`: the body is NOT wrapped in any try/except, so an
exception raised while decoding the upload escapes the handler. -/
def upload_image (image : UploadFile) (timestamp : Option String) :
    HandlerResult :=
  noBoundary (upload_image_body image timestamp)

end IntegrationExamples

/-- Modelled from the spec: FastAPI's `CORSMiddleware` (an external library
configured by the servers, not repository code).  With `allow_credentials=True`
and an explicit `allow_origins` list, a preflight request whose `Origin` is a
member of the list receives an `Access-Control-Allow-Origin` header echoing
that origin; any other origin receives no allow-origin header. -/
def corsAllowOriginHeader (allowed : List String) (origin : String) :
    Option String :=
  if origin ∈ allowed then some origin else none

/-- Whether a handler result is an HTTP 500 error response. -/
def isHttp500 : HandlerResult → Bool
  | HandlerResult.httpError 500 _ => true
  | _ => false

/-- A handler result from which no exception escaped. -/
def noEscape (r : HandlerResult) : Prop :=
  ∀ e, r ≠ HandlerResult.uncaught e

/-- The boundary contract of a `try/except`-to-500 handler: a successful body
is passed through, and a raised exception becomes an HTTP 500 response whose
detail is exactly the string representation of the exception. -/
def handlerCatches (body : Except String Json) (r : HandlerResult) : Prop :=
  match body with
  | Except.ok j => r = HandlerResult.ok j
  | Except.error e => r = HandlerResult.httpError 500 e

/-- The response invariant of the wildfire-list endpoints: the `total` field
equals the length of the `wildfires` array of the same response. -/
def totalMatchesCount (r : HandlerResult) : Prop :=
  ∃ ws, getField r "wildfires" = some (Json.arr ws) ∧
    getField r "total" = some (Json.num ws.length)

theorem tryExcept500_catches (body : Except String Json) :
    handlerCatches body (tryExcept500 body) := by
  cases body <;> simp [handlerCatches, tryExcept500]

theorem handlerCatches_noEscape (body : Except String Json)
    (r : HandlerResult) (h : handlerCatches body r) : noEscape r := by
  cases body <;> simp [handlerCatches] at h <;> simp [noEscape, h]

/-- C1 (counterexample): the claim quantifies over every route handler in
every server file.  `integration_examples.py` is a server file (it builds a
FastAPI app, registers route handlers and runs the app), and its Example 6
`POST /api/upload-image` handler decodes the upload with no try/except around
it: on a one-byte stream that is not an image, the decoding exception escapes
the handler uncaught instead of becoming an HTTP error response. -/
theorem uncaught_escape_in_integration_examples :
    IntegrationExamples.upload_image ⟨"notes.txt", [0]⟩ none =
      HandlerResult.uncaught "cannot identify image file <_io.BytesIO object>" := rfl

/-- C1 (amended): every route handler in `api_server_template.py`,
`backend_integration_example.py` and `backend_map_endpoints_example.py`
either has a body that cannot raise, or catches any exception raised in its
body at the handler boundary and converts it to an HTTP 500 response whose
detail is exactly the string representation of the exception; none of these
handlers lets an exception escape.  (The illustrative handlers of
`integration_examples.py` are not all wrapped this way.) -/
theorem handlers_catch_at_boundary (image : UploadFile)
    (lat lng : Option ℚ) (ts : Option String) (wd : Json)
    (latq lngq : ℚ) (radius : Option ℚ) :
    noEscape ApiServerTemplate.get_status ∧
    handlerCatches (ApiServerTemplate.upload_image_body image lat lng ts)
      (ApiServerTemplate.upload_image image lat lng ts) ∧
    handlerCatches (ApiServerTemplate.predict_wildfire_body image)
      (ApiServerTemplate.predict_wildfire image) ∧
    handlerCatches (ApiServerTemplate.get_infrastructure_recommendations_body wd)
      (ApiServerTemplate.get_infrastructure_recommendations wd) ∧
    handlerCatches (ApiServerTemplate.get_wildfires_nearby_body latq lngq radius)
      (ApiServerTemplate.get_wildfires_nearby latq lngq radius) ∧
    handlerCatches ApiServerTemplate.get_all_active_wildfires_body
      ApiServerTemplate.get_all_active_wildfires ∧
    noEscape BackendIntegrationExample.get_status ∧
    handlerCatches (BackendIntegrationExample.upload_image_body image ts)
      (BackendIntegrationExample.upload_image image ts) ∧
    handlerCatches (BackendIntegrationExample.predict_wildfire_body image)
      (BackendIntegrationExample.predict_wildfire image) ∧
    noEscape (BackendIntegrationExample.get_infrastructure_recommendations wd) ∧
    handlerCatches (BackendMapEndpointsExample.get_wildfires_nearby_body latq lngq radius)
      (BackendMapEndpointsExample.get_wildfires_nearby latq lngq radius) ∧
    handlerCatches BackendMapEndpointsExample.get_all_active_wildfires_body
      BackendMapEndpointsExample.get_all_active_wildfires ∧
    handlerCatches
      (BackendMapEndpointsExample.upload_image_with_location_body image lat lng ts)
      (BackendMapEndpointsExample.upload_image_with_location image lat lng ts) :=
  ⟨by simp [noEscape, ApiServerTemplate.get_status],
   tryExcept500_catches _, tryExcept500_catches _, tryExcept500_catches _,
   tryExcept500_catches _, tryExcept500_catches _,
   by simp [noEscape, BackendIntegrationExample.get_status],
   tryExcept500_catches _, tryExcept500_catches _,
   fun _ h => HandlerResult.noConfusion h,
   tryExcept500_catches _, tryExcept500_catches _, tryExcept500_catches _⟩

theorem Image_open_error_msg (bytes : List Nat) (e : String)
    (h : Image_open bytes = Except.error e) :
    e = "cannot identify image file <_io.BytesIO object>" := by
  unfold Image_open at h
  by_cases hp : pngSignature.isPrefixOf bytes
  · simp [hp] at h
  · simp [hp] at h
    exact h.symm

/-- C2 (counterexample): the claim covers the `POST /api/upload-image` and
`POST /api/predict` handlers of every server file, but the handlers of
`backend_integration_example.py` never decode the uploaded bytes: on the
one-byte stream `[0]`, which is not decodable as an image, they return a
successful response rather than HTTP 500. -/
theorem integration_upload_not_500_on_undecodable :
    (Image_open [0]).isOk = false ∧
    isHttp500 (BackendIntegrationExample.upload_image ⟨"sensor.bin", [0]⟩ none) = false ∧
    isHttp500 (BackendIntegrationExample.predict_wildfire ⟨"sensor.bin", [0]⟩) = false :=
  ⟨rfl, rfl, rfl⟩

/-- C2 (amended): the upload endpoints that decode the uploaded bytes as an
image — `POST /api/upload-image` and `POST /api/predict` of
`api_server_template.py` and `POST /api/upload-image` of
`backend_map_endpoints_example.py` — return HTTP 500 with a non-empty detail
string whenever the byte stream cannot be decoded; the upload endpoints of
`backend_integration_example.py` never decode the bytes and answer
successfully regardless. -/
theorem upload_decode_failure_yields_500 (image : UploadFile)
    (lat lng : Option ℚ) (ts : Option String) (e : String)
    (hdec : Image_open image.content = Except.error e) :
    ApiServerTemplate.upload_image image lat lng ts =
      HandlerResult.httpError 500 e ∧
    ApiServerTemplate.predict_wildfire image = HandlerResult.httpError 500 e ∧
    BackendMapEndpointsExample.upload_image_with_location image lat lng ts =
      HandlerResult.httpError 500 e ∧
    e ≠ "" := by
  refine ⟨?_, ?_, ?_, ?_⟩
  · simp [ApiServerTemplate.upload_image, ApiServerTemplate.upload_image_body,
      hdec, tryExcept500]
  · simp [ApiServerTemplate.predict_wildfire,
      ApiServerTemplate.predict_wildfire_body, hdec, tryExcept500]
  · simp [BackendMapEndpointsExample.upload_image_with_location,
      BackendMapEndpointsExample.upload_image_with_location_body, hdec,
      tryExcept500]
  · rw [Image_open_error_msg image.content e hdec]
    simp

theorem upload_decode_failure_yields_500_witness :
    Image_open [0] =
      Except.error "cannot identify image file <_io.BytesIO object>" ∧
    ApiServerTemplate.predict_wildfire ⟨"x.bin", [0]⟩ =
      HandlerResult.httpError 500
        "cannot identify image file <_io.BytesIO object>" ∧
    "cannot identify image file <_io.BytesIO object>" ≠ "" :=
  ⟨rfl,
   (upload_decode_failure_yields_500 ⟨"x.bin", [0]⟩ none none none _ rfl).2.1,
   (upload_decode_failure_yields_500 ⟨"x.bin", [0]⟩ none none none _ rfl).2.2.2⟩

/-- C3 (counterexample): the `GET /api/wildfires/nearby` handler of
`api_server_template.py` answers the query `lat=34, lng=-118, radius=25` with
a JSON object whose top-level keys are exactly `wildfires`, `total` and
`radius_km`: the documented keys `center_lat` and `center_lng` are absent. -/
theorem template_nearby_missing_center_keys :
    topKeys (ApiServerTemplate.get_wildfires_nearby 34 (-118) (some 25)) =
      ["wildfires", "total", "radius_km"] ∧
    (topKeys (ApiServerTemplate.get_wildfires_nearby 34 (-118) (some 25))).contains
      "center_lat" = false ∧
    (topKeys (ApiServerTemplate.get_wildfires_nearby 34 (-118) (some 25))).contains
      "center_lng" = false :=
  ⟨rfl, rfl, rfl⟩

/-- C3 (amended): for every well-formed request, each handler's response
contains exactly the documented top-level keys, except that
`GET /api/wildfires/nearby` of `api_server_template.py` returns only
`wildfires`, `total`, `radius_km` (no `center_lat`/`center_lng` — those appear
only in `backend_map_endpoints_example.py`), and `POST /api/upload-image` of
`backend_map_endpoints_example.py` returns `message`, `filename`, `location`,
`prediction` (no `size`/`timestamp`). -/
theorem response_topkeys_per_file (latq lngq : ℚ) (radius : Option ℚ)
    (image : UploadFile) (lat lng : Option ℚ) (ts : Option String)
    (p : PILImage) (wd : Json)
    (hdec : Image_open image.content = Except.ok p) :
    topKeys ApiServerTemplate.get_status =
      ["status", "active_wildfires", "risk_level", "last_update"] ∧
    topKeys (ApiServerTemplate.upload_image image lat lng ts) =
      ["message", "filename", "size", "timestamp", "prediction"] ++
        (if pyTruthy lat && pyTruthy lng then ["location"] else []) ∧
    topKeys (ApiServerTemplate.predict_wildfire image) =
      ["risk_level", "confidence", "affected_areas", "recommendations"] ∧
    topKeys (ApiServerTemplate.get_infrastructure_recommendations wd) =
      ["recommendations", "evacuation_routes"] ∧
    topKeys (ApiServerTemplate.get_wildfires_nearby latq lngq radius) =
      ["wildfires", "total", "radius_km"] ∧
    topKeys ApiServerTemplate.get_all_active_wildfires =
      ["wildfires", "total"] ∧
    topKeys (BackendMapEndpointsExample.get_wildfires_nearby latq lngq radius) =
      ["wildfires", "total", "radius_km", "center_lat", "center_lng"] ∧
    topKeys BackendMapEndpointsExample.get_all_active_wildfires =
      ["wildfires", "total"] ∧
    topKeys (BackendMapEndpointsExample.upload_image_with_location image lat lng ts) =
      ["message", "filename", "location", "prediction"] := by
  refine ⟨rfl, ?_, ?_, rfl, rfl, rfl, rfl, rfl, ?_⟩
  · cases hc : pyTruthy lat && pyTruthy lng <;>
      simp [ApiServerTemplate.upload_image, ApiServerTemplate.upload_image_body,
        hdec, tryExcept500, topKeys, hc]
  · simp [ApiServerTemplate.predict_wildfire,
      ApiServerTemplate.predict_wildfire_body, hdec, tryExcept500, topKeys,
      ApiServerTemplate.predict_prediction]
  · simp [BackendMapEndpointsExample.upload_image_with_location,
      BackendMapEndpointsExample.upload_image_with_location_body, hdec,
      tryExcept500, topKeys]

theorem response_topkeys_per_file_witness :
    Image_open pngSignature = Except.ok ⟨pngSignature⟩ ∧
    topKeys (ApiServerTemplate.upload_image ⟨"a.png", pngSignature⟩
        (some 34) (some (-118)) (some "2024-01-01T00:00:00Z")) =
      ["message", "filename", "size", "timestamp", "prediction"] ++
        (if pyTruthy (some 34) && pyTruthy (some (-118)) then ["location"]
         else []) :=
  ⟨rfl,
   (response_topkeys_per_file 0 0 none ⟨"a.png", pngSignature⟩
     (some 34) (some (-118)) (some "2024-01-01T00:00:00Z")
     ⟨pngSignature⟩ Json.null rfl).2.1⟩

/-- C4: the `GET /api/wildfires/nearby` handler of
`backend_map_endpoints_example.py` performs no distance or radius filtering:
for every query center and every radius (supplied or omitted) it returns
exactly the two fabricated wildfires at offsets `(lat+0.05, lng+0.05)` and
`(lat-0.03, lng+0.08)` from the center, with `total = 2`; the `wildfires`
 list and `total` do not depend on the radius. -/
theorem map_nearby_fixed_offsets_unconditional (lat lng : ℚ)
    (radius : Option ℚ) :
    getField (BackendMapEndpointsExample.get_wildfires_nearby lat lng radius)
        "wildfires" =
      some (Json.arr
        [Json.obj
          [("id", Json.num 1),
           ("lat", Json.num (lat + 0.05)),
           ("lng", Json.num (lng + 0.05)),
           ("intensity", Json.str "high"),
           ("confidence", Json.num 0.85),
           ("area", Json.str "North Region"),
           ("detected_at", Json.str "2024-01-01T12:00:00Z"),
           ("status", Json.str "active"),
           ("affected_infrastructure", Json.arr
             [Json.str "power_lines", Json.str "water_supply"])],
         Json.obj
          [("id", Json.num 2),
           ("lat", Json.num (lat - 0.03)),
           ("lng", Json.num (lng + 0.08)),
           ("intensity", Json.str "medium"),
           ("confidence", Json.num 0.72),
           ("area", Json.str "East Region"),
           ("detected_at", Json.str "2024-01-01T11:30:00Z"),
           ("status", Json.str "active"),
           ("affected_infrastructure", Json.arr [Json.str "transportation"])]]) ∧
    getField (BackendMapEndpointsExample.get_wildfires_nearby lat lng radius)
        "total" =
      some (Json.num 2) := by
  cases radius <;> exact ⟨rfl, rfl⟩

/-- C5: the `POST /api/predict` handler of `api_server_template.py` is a
constant function of the request content: any two uploads that decode
successfully receive the identical statically-written prediction, with
`risk_level` `high` and `confidence` `0.85`. -/
theorem predict_constant_on_decodable (i1 i2 : UploadFile) (p1 p2 : PILImage)
    (h1 : Image_open i1.content = Except.ok p1)
    (h2 : Image_open i2.content = Except.ok p2) :
    ApiServerTemplate.predict_wildfire i1 = ApiServerTemplate.predict_wildfire i2 ∧
    ApiServerTemplate.predict_wildfire i1 =
      HandlerResult.ok ApiServerTemplate.predict_prediction ∧
    getField (ApiServerTemplate.predict_wildfire i1) "risk_level" =
      some (Json.str "high") ∧
    getField (ApiServerTemplate.predict_wildfire i1) "confidence" =
      some (Json.num 0.85) := by
  have e1 : ApiServerTemplate.predict_wildfire i1 =
      HandlerResult.ok ApiServerTemplate.predict_prediction := by
    simp [ApiServerTemplate.predict_wildfire,
      ApiServerTemplate.predict_wildfire_body, h1, tryExcept500]
  have e2 : ApiServerTemplate.predict_wildfire i2 =
      HandlerResult.ok ApiServerTemplate.predict_prediction := by
    simp [ApiServerTemplate.predict_wildfire,
      ApiServerTemplate.predict_wildfire_body, h2, tryExcept500]
  refine ⟨e1.trans e2.symm, e1, ?_, ?_⟩ <;>
    rw [e1] <;> rfl

theorem predict_constant_on_decodable_witness :
    Image_open pngSignature = Except.ok ⟨pngSignature⟩ ∧
    Image_open (pngSignature ++ [1, 2, 3]) =
      Except.ok ⟨pngSignature ++ [1, 2, 3]⟩ ∧
    ApiServerTemplate.predict_wildfire ⟨"forest.png", pngSignature⟩ =
      ApiServerTemplate.predict_wildfire
        ⟨"city.png", pngSignature ++ [1, 2, 3]⟩ :=
  ⟨rfl, by rfl,
   (predict_constant_on_decodable ⟨"forest.png", pngSignature⟩
     ⟨"city.png", pngSignature ++ [1, 2, 3]⟩ ⟨pngSignature⟩
     ⟨pngSignature ++ [1, 2, 3]⟩ rfl (by rfl)).1⟩

/-- C6: for every successful `POST /api/upload-image` request handled by
`api_server_template.py` or `backend_integration_example.py`, the response
echoes the upload: `message` is `Image uploaded successfully`, `filename` is
the uploaded file's name, `size` is the number of bytes read, and `timestamp`
is the supplied timestamp value (JSON `null` when absent). -/
theorem upload_response_echoes_upload_metadata (image : UploadFile)
    (lat lng : Option ℚ) (ts : Option String) (p : PILImage)
    (hdec : Image_open image.content = Except.ok p) :
    getField (ApiServerTemplate.upload_image image lat lng ts) "message" =
      some (Json.str "Image uploaded successfully") ∧
    getField (ApiServerTemplate.upload_image image lat lng ts) "filename" =
      some (Json.str image.filename) ∧
    getField (ApiServerTemplate.upload_image image lat lng ts) "size" =
      some (Json.num image.content.length) ∧
    getField (ApiServerTemplate.upload_image image lat lng ts) "timestamp" =
      some (optStr ts) ∧
    getField (BackendIntegrationExample.upload_image image ts) "message" =
      some (Json.str "Image uploaded successfully") ∧
    getField (BackendIntegrationExample.upload_image image ts) "filename" =
      some (Json.str image.filename) ∧
    getField (BackendIntegrationExample.upload_image image ts) "size" =
      some (Json.num image.content.length) ∧
    getField (BackendIntegrationExample.upload_image image ts) "timestamp" =
      some (optStr ts) := by
  refine ⟨?_, ?_, ?_, ?_, rfl, rfl, rfl, rfl⟩ <;>
    cases hc : pyTruthy lat && pyTruthy lng <;>
      simp [ApiServerTemplate.upload_image, ApiServerTemplate.upload_image_body,
        hdec, tryExcept500, getField, hc, List.lookup]

theorem upload_response_echoes_upload_metadata_witness :
    Image_open pngSignature = Except.ok ⟨pngSignature⟩ ∧
    getField (ApiServerTemplate.upload_image ⟨"shot.png", pngSignature⟩
        none none (some "2024-06-01T10:00:00Z")) "size" =
      some (Json.num (pngSignature.length : ℚ)) ∧
    getField (ApiServerTemplate.upload_image ⟨"shot.png", pngSignature⟩
        none none (some "2024-06-01T10:00:00Z")) "timestamp" =
      some (optStr (some "2024-06-01T10:00:00Z")) :=
  ⟨rfl,
   (upload_response_echoes_upload_metadata ⟨"shot.png", pngSignature⟩
     none none (some "2024-06-01T10:00:00Z") ⟨pngSignature⟩ rfl).2.2.1,
   (upload_response_echoes_upload_metadata ⟨"shot.png", pngSignature⟩
     none none (some "2024-06-01T10:00:00Z") ⟨pngSignature⟩ rfl).2.2.2.1⟩

/-- C7: the CORS configurations of `api_server_template.py` and
`backend_integration_example.py` list exactly the two fixed local development
origins; a preflight request from an allowed origin receives an allow-origin
header echoing that origin, and any other origin receives none. -/
theorem cors_allows_exactly_two_dev_origins (origin : String) :
    ApiServerTemplate.allow_origins =
      ["http://localhost:3000", "http://127.0.0.1:3000"] ∧
    BackendIntegrationExample.allow_origins =
      ["http://localhost:3000", "http://127.0.0.1:3000"] ∧
    (origin ∈ ApiServerTemplate.allow_origins ↔
      origin = "http://localhost:3000" ∨ origin = "http://127.0.0.1:3000") ∧
    (origin ∈ ApiServerTemplate.allow_origins →
      corsAllowOriginHeader ApiServerTemplate.allow_origins origin =
        some origin) ∧
    (origin ∉ ApiServerTemplate.allow_origins →
      corsAllowOriginHeader ApiServerTemplate.allow_origins origin = none) ∧
    corsAllowOriginHeader BackendIntegrationExample.allow_origins origin =
      corsAllowOriginHeader ApiServerTemplate.allow_origins origin := by
  refine ⟨rfl, rfl, ?_, ?_, ?_, rfl⟩
  · simp [ApiServerTemplate.allow_origins]
  · intro h
    simp [corsAllowOriginHeader, h]
  · intro h
    simp [corsAllowOriginHeader, h]

theorem cors_allows_exactly_two_dev_origins_witness :
    ("http://localhost:3000" : String) ∈ ApiServerTemplate.allow_origins ∧
    corsAllowOriginHeader ApiServerTemplate.allow_origins
      "http://localhost:3000" = some "http://localhost:3000" ∧
    ("http://evil.example" : String) ∉ ApiServerTemplate.allow_origins ∧
    corsAllowOriginHeader ApiServerTemplate.allow_origins
      "http://evil.example" = none :=
  ⟨List.mem_cons_self _ _,
   (cors_allows_exactly_two_dev_origins "http://localhost:3000").2.2.2.1
     (List.mem_cons_self _ _),
   by simp [ApiServerTemplate.allow_origins],
   (cors_allows_exactly_two_dev_origins "http://evil.example").2.2.2.2.1
     (by simp [ApiServerTemplate.allow_origins])⟩

/-- C8: the upload handlers include a real `location` only when both
coordinates are truthy in Python's sense: when either coordinate is `None` or
equals `0.0`, `api_server_template.py` omits the `location` key and
`backend_map_endpoints_example.py` sets `location` to JSON `null`, even though
a coordinate may have been supplied. -/
theorem location_included_only_when_truthy (image : UploadFile)
    (lat lng : Option ℚ) (ts : Option String) (p : PILImage)
    (hdec : Image_open image.content = Except.ok p) :
    getField (ApiServerTemplate.upload_image image lat lng ts) "location" =
      (if pyTruthy lat && pyTruthy lng then
        some (Json.obj
          [("lat", Json.num (lat.getD 0)), ("lng", Json.num (lng.getD 0))])
       else none) ∧
    getField (BackendMapEndpointsExample.upload_image_with_location
        image lat lng ts) "location" =
      (if pyTruthy lat && pyTruthy lng then
        some (Json.obj
          [("lat", Json.num (lat.getD 0)), ("lng", Json.num (lng.getD 0))])
       else some Json.null) ∧
    pyTruthy (some 0) = false ∧
    pyTruthy none = false := by
  refine ⟨?_, ?_, rfl, rfl⟩ <;>
    cases hc : pyTruthy lat && pyTruthy lng <;>
      simp [ApiServerTemplate.upload_image, ApiServerTemplate.upload_image_body,
        BackendMapEndpointsExample.upload_image_with_location,
        BackendMapEndpointsExample.upload_image_with_location_body,
        hdec, tryExcept500, getField, hc, List.lookup]

theorem location_included_only_when_truthy_witness :
    Image_open pngSignature = Except.ok ⟨pngSignature⟩ ∧
    pyTruthy (some 0) = false ∧
    getField (ApiServerTemplate.upload_image ⟨"eq.png", pngSignature⟩
        (some 0) (some 5) none) "location" =
      (if pyTruthy (some 0) && pyTruthy (some 5) then
        some (Json.obj
          [("lat", Json.num ((some (0 : ℚ)).getD 0)),
           ("lng", Json.num ((some (5 : ℚ)).getD 0))])
       else none) :=
  ⟨rfl, rfl,
   (location_included_only_when_truthy ⟨"eq.png", pngSignature⟩
     (some 0) (some 5) none ⟨pngSignature⟩ rfl).1⟩

/-- C9: in every `GET /api/wildfires/nearby` and `GET /api/wildfires/active`
response, across `api_server_template.py` and
`backend_map_endpoints_example.py`, the `total` field equals the length of the
`wildfires` list of the same response. -/
theorem total_equals_wildfires_length (lat lng : ℚ) (radius : Option ℚ) :
    totalMatchesCount (ApiServerTemplate.get_wildfires_nearby lat lng radius) ∧
    totalMatchesCount ApiServerTemplate.get_all_active_wildfires ∧
    totalMatchesCount
      (BackendMapEndpointsExample.get_wildfires_nearby lat lng radius) ∧
    totalMatchesCount BackendMapEndpointsExample.get_all_active_wildfires := by
  refine ⟨⟨[], ?_, ?_⟩, ⟨[], rfl, rfl⟩,
    ⟨BackendMapEndpointsExample.nearby_wildfires lat lng, ?_, ?_⟩,
    ⟨_, rfl, rfl⟩⟩ <;> cases radius <;> rfl

/-- C10: for `GET /api/wildfires/nearby` in both `api_server_template.py` and
`backend_map_endpoints_example.py`, the `radius` query parameter defaults to
50 when omitted, and the response's `radius_km` field equals the effective
radius (the supplied value, or 50 when none was supplied). -/
theorem nearby_radius_default_and_echo (lat lng r : ℚ) :
    getField (ApiServerTemplate.get_wildfires_nearby lat lng none)
      "radius_km" = some (Json.num 50) ∧
    getField (ApiServerTemplate.get_wildfires_nearby lat lng (some r))
      "radius_km" = some (Json.num r) ∧
    getField (BackendMapEndpointsExample.get_wildfires_nearby lat lng none)
      "radius_km" = some (Json.num 50) ∧
    getField (BackendMapEndpointsExample.get_wildfires_nearby lat lng (some r))
      "radius_km" = some (Json.num r) ∧
    (ApiServerTemplate.get_wildfires_nearby lat lng none =
      ApiServerTemplate.get_wildfires_nearby lat lng (some 50)) ∧
    (BackendMapEndpointsExample.get_wildfires_nearby lat lng none =
      BackendMapEndpointsExample.get_wildfires_nearby lat lng (some 50)) :=
  ⟨rfl, rfl, rfl, rfl, rfl, rfl⟩
